import Mathlib

/-!
Verification of the education-dashboard pipeline (src/app.py) against its
specification. The file shallow-embeds the data transformations of app.py
over exact rationals: tables are lists of cell rows, pandas numeric coercion
becomes an `Option ℚ` parser, the wide melt and long coercion become list
transformations, and `np.polyfit(x, y, 1)` is modelled by the normal
equations of the ordinary least-squares line.
-/

set_option allowUnsafeReducibility true
attribute [local semireducible] Rat.add Rat.sub Rat.mul Rat.inv Rat.div

namespace EduDash

/-- Cell of the raw table: a string, a number, or a missing value (NaN). -/
inductive Cell where
  | str (s : String)
  | num (q : ℚ)
  | na
deriving DecidableEq

/-- Table of named columns and rows of cells (app.py line 14, df_raw). -/
structure DataFrame where
  cols : List String
  rows : List (List Cell)
deriving DecidableEq

/-- Whitespace characters stripped by Python str.strip (ASCII fragment). -/
def pyWs (c : Char) : Bool :=
  c = ' ' || c = '\t' || c = '\n' || c = '\r' || c = '\x0b' || c = '\x0c'

/-- Model of Python str.strip(): drop leading and trailing whitespace. -/
def pyStrip (s : String) : String :=
  ⟨((s.toList.dropWhile pyWs).reverse.dropWhile pyWs).reverse⟩

/-- Decimal digit test for a character. -/
def isDigitChar (c : Char) : Bool := '0' ≤ c && c ≤ '9'

/-- Model of Python str.isdigit() on ASCII strings: nonempty and all decimal
    digits. (Python additionally accepts non-ASCII Unicode digit characters;
    the dataset's column names are ASCII.) -/
def pyIsdigit (s : String) : Bool :=
  !s.toList.isEmpty && s.toList.all isDigitChar

/-- Numeric value of a list of decimal digit characters. -/
def digitsVal (l : List Char) : ℕ :=
  l.foldl (fun a c => 10 * a + (c.toNat - 48)) 0

/-- Model of pd.to_numeric(errors="coerce") on a string cell (app.py lines
    72-73 and 76-77): an optional sign followed by decimal digits parses to
    that integer; anything else coerces to missing. Year and Value cells of
    this dataset are integer-formatted (the spec's LongRecord declares
    Year : integer). -/
def parseNumList (l : List Char) : Option ℚ :=
  if l.head? = some '-' then
    if !l.tail.isEmpty && l.tail.all isDigitChar then some (-(digitsVal l.tail : ℚ)) else none
  else if l.head? = some '+' then
    if !l.tail.isEmpty && l.tail.all isDigitChar then some ((digitsVal l.tail : ℚ)) else none
  else
    if !l.isEmpty && l.all isDigitChar then some ((digitsVal l : ℚ)) else none

/-- Lenient numeric parse of a whole string: strip, then parse. -/
def parseNumStr (s : String) : Option ℚ :=
  parseNumList (pyStrip s).toList

/-- Numeric coercion of one cell: numbers pass through, NaN stays missing,
    strings are parsed leniently. -/
def toNumeric (c : Cell) : Option ℚ :=
  match c with
  | .num q => some q
  | .na => none
  | .str s => parseNumStr s

/-- Cell of a row under a named column (a missing column yields NaN; the
    app's schema check, app.py lines 21-32, stops before that can happen). -/
def getCell (cols : List String) (row : List Cell) (c : String) : Cell :=
  match cols.indexOf? c with
  | some i => row.getD i Cell.na
  | none => Cell.na

/-- Year columns (app.py line 17): column names that are all decimal digits
    after stripping. -/
def year_cols (df : DataFrame) : List String :=
  df.cols.filter (fun c => pyIsdigit (pyStrip c))

/-- Shape detection (app.py line 18): wide iff at least one year column. -/
def is_wide (df : DataFrame) : Bool :=
  decide (0 < (year_cols df).length)

/-- Equality of a cell against a selector string (a pandas == match: only a
    string cell equal to the string matches; NaN never matches). -/
def cellEqStr (c : Cell) (s : String) : Bool :=
  match c with
  | .str t => t = s
  | _ => false

/-- Rows matching the selected country and indicator (app.py line 57). -/
def subRows (df : DataFrame) (country indicator : String) : List (List Cell) :=
  df.rows.filter (fun row =>
    cellEqStr (getCell df.cols row "Country Name") country &&
    cellEqStr (getCell df.cols row "Indicator Name") indicator)

/-- Decimal digit character for a value below ten. -/
def digitChar (n : ℕ) : Char := Char.ofNat (48 + n)

/-- Decimal digits, most significant first, with explicit recursion fuel so
    that the definition evaluates inside the kernel. -/
def natDigitsAux : ℕ → ℕ → List Char
  | 0, _ => []
  | fuel + 1, n =>
    if n < 10 then [digitChar n]
    else natDigitsAux fuel (n / 10) ++ [digitChar (n % 10)]

/-- Decimal digits of a natural number, most significant first. -/
def natDigits (n : ℕ) : List Char := natDigitsAux (n + 1) n

/-- Model of Python str(int): canonical decimal representation. -/
def intToStr (y : ℤ) : String :=
  if y < 0 then ⟨'-' :: natDigits (-y).toNat⟩ else ⟨natDigits y.toNat⟩

/-- Model of Python range(a, b + 1) as a list of integers. -/
def intRange (a b : ℤ) : List ℤ :=
  (List.range (b + 1 - a).toNat).map (fun i : ℕ => a + (i : ℤ))

/-- Year columns actually melted (app.py line 61): canonical decimal names of
    the integers of the selected range that occur among the table's columns. -/
def selected_year_cols (df : DataFrame) (yr : ℤ × ℤ) : List String :=
  ((intRange yr.1 yr.2).filter (fun y => decide (intToStr y ∈ df.cols))).map intToStr

/-- Row of the long table before the Year dropna (app.py lines 66-78):
    carried identifier cells plus numerically coerced Year and Value. -/
structure RawRec where
  ids : List Cell
  year : Option ℚ
  value : Option ℚ
deriving DecidableEq

/-- Row of the final long series: Year present, Value possibly missing. -/
structure LongRec where
  ids : List Cell
  year : ℚ
  value : Option ℚ
deriving DecidableEq

/-- Identifier columns of the melt (app.py line 67): every non-year column. -/
def id_vars (df : DataFrame) : List String :=
  df.cols.filter (fun c => !(year_cols df).contains c)

/-- Wide branch (app.py lines 66-73): melt the selected year columns and
    coerce Year and Value; records are stacked per year column, each year
    column over every matching row, as pd.melt stacks them. -/
def wideRaw (df : DataFrame) (country indicator : String) (yr : ℤ × ℤ) : List RawRec :=
  (selected_year_cols df yr).flatMap (fun v =>
    (subRows df country indicator).map (fun row =>
      { ids := (id_vars df).map (fun c => getCell df.cols row c)
        year := toNumeric (Cell.str v)
        value := toNumeric (getCell df.cols row v) }))

/-- Range mask of the long branch (app.py line 78): a present Year is kept
    when it lies within the selected bounds; a missing Year compares false,
    as NaN does in pandas. -/
def inRangeQ (yr : ℤ × ℤ) (o : Option ℚ) : Bool :=
  match o with
  | some y => decide ((yr.1 : ℚ) ≤ y) && decide (y ≤ (yr.2 : ℚ))
  | none => false

/-- One coerced row of the long branch (app.py lines 75-77): identifier cells
    plus the numerically coerced Year and Value cells. -/
def longRow (df : DataFrame) (row : List Cell) : RawRec :=
  { ids := (df.cols.filter (fun c => c != "Year" && c != "Value")).map
      (fun c => getCell df.cols row c)
    year := toNumeric (getCell df.cols row "Year")
    value := toNumeric (getCell df.cols row "Value") }

/-- Long branch (app.py lines 75-78): coerce Year and Value, then keep rows
    whose Year lies in the selected range. -/
def longRaw (df : DataFrame) (country indicator : String) (yr : ℤ × ℤ) : List RawRec :=
  ((subRows df country indicator).map (fun row => longRow df row)).filter (fun r =>
    inRangeQ yr r.year)

/-- Dropna on Year (app.py line 80, dropna(subset=["Year"])). -/
def dropnaYear (l : List RawRec) : List LongRec :=
  l.filterMap (fun r => r.year.map (fun y => ⟨r.ids, y, r.value⟩))

/-- Ascending sort by Year (app.py line 80, sort_values("Year")), modelled as
    a stable insertion sort. pandas' default quicksort likewise yields a
    Year-ascending permutation but fixes no particular order among rows of
    equal Year. -/
def sortByYear (l : List LongRec) : List LongRec :=
  List.insertionSort (fun a b => a.year ≤ b.year) l

/-- Filter-and-reshape pipeline (app.py lines 57-80) producing the long
    series. -/
def sub_long (df : DataFrame) (country indicator : String) (yr : ℤ × ℤ) : List LongRec :=
  sortByYear (dropnaYear
    (if is_wide df then wideRaw df country indicator yr else longRaw df country indicator yr))

/-- Clean series (app.py line 91): rows with non-missing Value. -/
def clean (l : List LongRec) : List LongRec :=
  l.filter (fun r => r.value.isSome)

/-- Points handed to the fit (app.py lines 93-94); on the clean series every
    Value is present, so getD never falls back to its default. -/
def cleanPts (l : List LongRec) : List (ℚ × ℚ) :=
  l.map (fun r => (r.year, r.value.getD 0))

/-- Maximum of the Year column (clean["Year"].max()); 0 on an empty series,
    where the app never reads it (guard at app.py line 92). -/
def maxYear (l : List LongRec) : ℚ :=
  match l with
  | [] => 0
  | r :: t => t.foldl (fun a s => max a s.year) r.year

/-- Model of Python int() on a rational: truncation toward zero, computed on
    the reduced numerator and denominator. -/
def pyInt (q : ℚ) : ℤ :=
  Int.tdiv q.num (q.den : ℤ)

/-- Sum of the x coordinates of a point list. -/
def sxOf (pts : List (ℚ × ℚ)) : ℚ := (pts.map Prod.fst).sum

/-- Sum of the y coordinates of a point list. -/
def syOf (pts : List (ℚ × ℚ)) : ℚ := (pts.map Prod.snd).sum

/-- Sum of the squared x coordinates of a point list. -/
def sxxOf (pts : List (ℚ × ℚ)) : ℚ := (pts.map (fun p => p.1 * p.1)).sum

/-- Sum of the products x*y over a point list. -/
def sxyOf (pts : List (ℚ × ℚ)) : ℚ := (pts.map (fun p => p.1 * p.2)).sum

/-- Sum of the squared y coordinates of a point list. -/
def syyOf (pts : List (ℚ × ℚ)) : ℚ := (pts.map (fun p => p.2 * p.2)).sum

/-- Model of np.polyfit(x, y, 1) (app.py line 95) by the normal equations of
    the ordinary least-squares line, over exact rationals: (slope, intercept).
    Whenever the design matrix has full rank (the x values are not all equal)
    this is the unique least-squares solution; see polyfit1_least_squares. -/
def polyfit1 (pts : List (ℚ × ℚ)) : ℚ × ℚ :=
  let n : ℚ := pts.length
  let d := n * sxxOf pts - sxOf pts * sxOf pts
  let m := (n * sxyOf pts - sxOf pts * syOf pts) / d
  (m, (syOf pts - m * sxOf pts) / n)

/-- Ten forecast years (app.py line 97, np.arange(M + 1, M + 11)). -/
def future_years (M : ℤ) : List ℤ :=
  (List.range 10).map (fun i => M + 1 + (i : ℤ))

/-- Forecast records (app.py lines 95-99): predicted value m*Year + b for
    each of the ten years after the last clean Year. -/
def forecastOf (cl : List LongRec) : List (ℤ × ℚ) :=
  let mb := polyfit1 (cleanPts cl)
  (future_years (pyInt (maxYear cl))).map (fun y => (y, mb.1 * (y : ℚ) + mb.2))

/-- Sum of squared vertical residuals of a candidate line. -/
def sse (pts : List (ℚ × ℚ)) (m b : ℚ) : ℚ :=
  (pts.map (fun p => (p.2 - (m * p.1 + b)) ^ 2)).sum

/-- Per-year completeness entry (app.py lines 108-112). -/
structure YearStat where
  year : ℚ
  total : ℕ
  missing : ℕ
  missing_rate : ℚ
deriving DecidableEq

/-- Completeness table (app.py lines 108-112): group the long series by Year;
    total is the group size, missing the count of missing Values in the
    group, and missing_rate their quotient guarded by np.where against a
    zero total. -/
def countsOf (l : List LongRec) : List YearStat :=
  ((l.map (fun r => r.year)).dedup).map (fun y =>
    let grp := l.filter (fun r => decide (r.year = y))
    let missing := (grp.filter (fun r => r.value.isNone)).length
    { year := y
      total := grp.length
      missing := missing
      missing_rate := if 0 < grp.length then (missing : ℚ) / (grp.length : ℚ) else 0 })

/-- Outcome of one render pass (app.py lines 82-122): the four analytics.
    The forecast is absent, and the informational notice shown, exactly when
    fewer than two clean points exist (lines 92 and 104-105); the
    distribution is the list of clean values fed to the histogram
    (line 121). -/
structure RenderResult where
  trend : List LongRec
  forecast : Option (List (ℤ × ℚ))
  insufficient : Bool
  completeness : List YearStat
  distribution : List ℚ
deriving DecidableEq

/-- Analytics stage as a pure function of the table and the selection. -/
def render (df : DataFrame) (country indicator : String) (yr : ℤ × ℤ) : RenderResult :=
  let L := sub_long df country indicator yr
  let cl := clean L
  { trend := L
    forecast := if 2 ≤ cl.length then some (forecastOf cl) else none
    insufficient := decide (cl.length < 2)
    completeness := countsOf L
    distribution := cl.filterMap (fun r => r.value) }

/-! Helper lemmas about the Python string primitives. -/

/-- Dropping a false-everywhere prefix leaves a list unchanged. -/
lemma dropWhile_all_false {p : Char → Bool} (l : List Char) (h : ∀ c ∈ l, p c = false) :
    l.dropWhile p = l := by
  cases l with
  | nil => rfl
  | cons a t => simp [List.dropWhile_cons, h a (by simp)]

/-- Stripping a string with no whitespace at all leaves it unchanged. -/
lemma pyStrip_all {l : List Char} (h : ∀ c ∈ l, pyWs c = false) : pyStrip ⟨l⟩ = ⟨l⟩ := by
  have h2 : ∀ c ∈ l.reverse, pyWs c = false := fun c hc => h c (List.mem_reverse.mp hc)
  unfold pyStrip
  rw [show (⟨l⟩ : String).toList = l from rfl, dropWhile_all_false l h,
    dropWhile_all_false l.reverse h2, List.reverse_reverse]

/-- Decimal digit characters are not whitespace. -/
lemma pyWs_of_digit {c : Char} (h : isDigitChar c = true) : pyWs c = false := by
  by_cases h1 : c = ' '
  · subst h1; exact absurd h (by decide)
  by_cases h2 : c = '\t'
  · subst h2; exact absurd h (by decide)
  by_cases h3 : c = '\n'
  · subst h3; exact absurd h (by decide)
  by_cases h4 : c = '\r'
  · subst h4; exact absurd h (by decide)
  by_cases h5 : c = '\x0b'
  · subst h5; exact absurd h (by decide)
  by_cases h6 : c = '\x0c'
  · subst h6; exact absurd h (by decide)
  simp [pyWs, h1, h2, h3, h4, h5, h6]

/-- Decimal digit characters are not the minus sign. -/
lemma ne_dash_of_digit {c : Char} (h : isDigitChar c = true) : c ≠ '-' := by
  rintro rfl; exact absurd h (by decide)

/-- Decimal digit characters are not the plus sign. -/
lemma ne_plus_of_digit {c : Char} (h : isDigitChar c = true) : c ≠ '+' := by
  rintro rfl; exact absurd h (by decide)

/-- Characters printed for values below ten are decimal digits. -/
lemma isDigitChar_digitChar {k : ℕ} (h : k < 10) : isDigitChar (digitChar k) = true := by
  interval_cases k <;> decide

/-- Code point of a printed digit. -/
lemma digitChar_toNat {k : ℕ} (h : k < 10) : (digitChar k).toNat = 48 + k := by
  interval_cases k <;> decide

/-- Printing with enough fuel never yields the empty string. -/
lemma natDigitsAux_ne_nil (fuel : ℕ) : ∀ n < fuel, natDigitsAux fuel n ≠ [] := by
  cases fuel with
  | zero => intro n h; omega
  | succ f =>
    intro n _ h
    rw [natDigitsAux] at h
    by_cases h10 : n < 10
    · rw [if_pos h10] at h
      exact List.cons_ne_nil _ _ h
    · rw [if_neg h10] at h
      exact List.append_ne_nil_of_right_ne_nil _ (List.cons_ne_nil _ _) h

/-- Every character printed with enough fuel is a decimal digit. -/
lemma natDigitsAux_all (fuel : ℕ) :
    ∀ n < fuel, ∀ c ∈ natDigitsAux fuel n, isDigitChar c = true := by
  induction fuel with
  | zero => intro n h; omega
  | succ f ih =>
    intro n hn c hc
    rw [natDigitsAux] at hc
    by_cases h10 : n < 10
    · rw [if_pos h10] at hc
      simp only [List.mem_singleton] at hc
      subst hc
      exact isDigitChar_digitChar h10
    · rw [if_neg h10] at hc
      rcases List.mem_append.mp hc with hc | hc
      · have hlt := Nat.div_lt_self (by omega : 0 < n) (by omega : 1 < 10)
        exact ih (n / 10) (by omega) c hc
      · simp only [List.mem_singleton] at hc
        subst hc
        exact isDigitChar_digitChar (Nat.mod_lt _ (by omega))

/-- Value of a digit list grown on the right. -/
lemma digitsVal_append (l : List Char) (c : Char) :
    digitsVal (l ++ [c]) = 10 * digitsVal l + (c.toNat - 48) := by
  simp [digitsVal, List.foldl_append]

/-- Printing with enough fuel then reading back is the identity. -/
lemma digitsVal_natDigitsAux (fuel : ℕ) :
    ∀ n < fuel, digitsVal (natDigitsAux fuel n) = n := by
  induction fuel with
  | zero => intro n h; omega
  | succ f ih =>
    intro n hn
    rw [natDigitsAux]
    by_cases h10 : n < 10
    · rw [if_pos h10]
      simp [digitsVal, digitChar_toNat h10]
    · rw [if_neg h10]
      have hlt := Nat.div_lt_self (by omega : 0 < n) (by omega : 1 < 10)
      rw [digitsVal_append, ih (n / 10) (by omega), digitChar_toNat (Nat.mod_lt _ (by omega))]
      omega

/-- Decimal printing never yields the empty string. -/
lemma natDigits_ne_nil (n : ℕ) : natDigits n ≠ [] :=
  natDigitsAux_ne_nil (n + 1) n (by omega)

/-- Every character of a printed natural number is a decimal digit. -/
lemma natDigits_all (n : ℕ) : ∀ c ∈ natDigits n, isDigitChar c = true :=
  natDigitsAux_all (n + 1) n (by omega)

/-- Printing then reading a natural number is the identity. -/
lemma digitsVal_natDigits (n : ℕ) : digitsVal (natDigits n) = n :=
  digitsVal_natDigitsAux (n + 1) n (by omega)

/-- Parsing a nonempty all-digit character list yields its decimal value. -/
lemma parseNumList_digits {l : List Char} (hne : l ≠ []) (hd : ∀ c ∈ l, isDigitChar c = true) :
    parseNumList l = some ((digitsVal l : ℚ)) := by
  obtain ⟨c, t, rfl⟩ := List.exists_cons_of_ne_nil hne
  have hc : isDigitChar c = true := hd c (by simp)
  have h1 : ¬((c :: t).head? = some '-') := by simp; exact ne_dash_of_digit hc
  have h2 : ¬((c :: t).head? = some '+') := by simp; exact ne_plus_of_digit hc
  have h3 : (!(c :: t).isEmpty && (c :: t).all isDigitChar) = true := by
    simp [List.all_eq_true]
    exact ⟨hc, fun a ha => hd a (by simp [ha])⟩
  unfold parseNumList
  rw [if_neg h1, if_neg h2, if_pos h3]

/-- Parsing a minus sign followed by digits yields the negated value. -/
lemma parseNumList_neg {l : List Char} (hne : l ≠ []) (hd : ∀ c ∈ l, isDigitChar c = true) :
    parseNumList ('-' :: l) = some (-(digitsVal l : ℚ)) := by
  have h3 : (!('-' :: l).tail.isEmpty && ('-' :: l).tail.all isDigitChar) = true := by
    simp [List.all_eq_true, hne]; exact fun a ha => hd a ha
  unfold parseNumList
  rw [if_pos (by simp), if_pos h3]
  rfl

/-- Printing an integer with str and coercing it back with pd.to_numeric
    recovers the integer: the melted Year labels always parse back. -/
lemma parseNumStr_intToStr (y : ℤ) : parseNumStr (intToStr y) = some ((y : ℚ)) := by
  unfold intToStr
  split
  · rename_i hy
    have hne := natDigits_ne_nil (-y).toNat
    have hall := natDigits_all (-y).toNat
    have hstrip : pyStrip ⟨'-' :: natDigits (-y).toNat⟩ = ⟨'-' :: natDigits (-y).toNat⟩ := by
      refine pyStrip_all ?_
      intro c hc
      rcases List.mem_cons.mp hc with hc | hc
      · subst hc; decide
      · exact pyWs_of_digit (hall c hc)
    unfold parseNumStr
    rw [hstrip, show (⟨'-' :: natDigits (-y).toNat⟩ : String).toList
        = '-' :: natDigits (-y).toNat from rfl,
      parseNumList_neg hne hall, digitsVal_natDigits]
    have hcast : (((-y).toNat : ℚ)) = -(y : ℚ) := by
      have h' : (((-y).toNat : ℤ)) = -y := Int.toNat_of_nonneg (by omega)
      exact_mod_cast h'
    rw [hcast]
    simp
  · rename_i hy
    have hne := natDigits_ne_nil y.toNat
    have hall := natDigits_all y.toNat
    have hstrip : pyStrip ⟨natDigits y.toNat⟩ = ⟨natDigits y.toNat⟩ :=
      pyStrip_all (fun c hc => pyWs_of_digit (hall c hc))
    unfold parseNumStr
    rw [hstrip, show (⟨natDigits y.toNat⟩ : String).toList = natDigits y.toNat from rfl,
      parseNumList_digits hne hall, digitsVal_natDigits]
    have hcast : ((y.toNat : ℚ)) = (y : ℚ) := by
      have h' : ((y.toNat : ℤ)) = y := Int.toNat_of_nonneg (by omega)
      exact_mod_cast h'
    rw [hcast]

/-- Membership in the model of Python range(a, b + 1). -/
lemma mem_intRange {a b y : ℤ} : y ∈ intRange a b ↔ a ≤ y ∧ y ≤ b := by
  unfold intRange
  rw [List.mem_map]
  constructor
  · rintro ⟨i, hi, rfl⟩
    rw [List.mem_range] at hi
    omega
  · rintro ⟨h1, h2⟩
    refine ⟨(y - a).toNat, ?_, ?_⟩
    · rw [List.mem_range]
      omega
    · omega

/-- Filtering with an everywhere-defined partial map keeps the length. -/
lemma length_filterMap_of_some {α β : Type} {f : α → Option β} {l : List α}
    (h : ∀ a ∈ l, (f a).isSome = true) : (l.filterMap f).length = l.length := by
  induction l with
  | nil => rfl
  | cons a t ih =>
    obtain ⟨b, hb⟩ := Option.isSome_iff_exists.mp (h a (by simp))
    rw [show List.filterMap f (a :: t) = b :: List.filterMap f t from by
      rw [List.filterMap_cons, hb]]
    simp [ih (fun x hx => h x (by simp [hx]))]

/-- Dropna on Year removes nothing when every Year is present. -/
lemma dropnaYear_length {l : List RawRec} (h : ∀ r ∈ l, r.year.isSome = true) :
    (dropnaYear l).length = l.length := by
  unfold dropnaYear
  refine length_filterMap_of_some ?_
  intro r hr
  obtain ⟨y, hy⟩ := Option.isSome_iff_exists.mp (h r hr)
  simp [hy]

/-- Length of a flat map whose pieces all have one length. -/
lemma length_flatMap_eq {α β : Type} (l : List α) (f : α → List β) (k : ℕ)
    (h : ∀ a ∈ l, (f a).length = k) : (l.flatMap f).length = l.length * k := by
  induction l with
  | nil => simp
  | cons a t ih =>
    rw [List.flatMap_cons, List.length_append, h a (by simp),
      ih (fun x hx => h x (by simp [hx])), List.length_cons]
    ring

/-- Truncation toward zero is the identity on integers. -/
lemma pyInt_intCast (M : ℤ) : pyInt ((M : ℚ)) = M := by
  unfold pyInt
  rw [Rat.intCast_num, Rat.intCast_den]
  exact Int.tdiv_one M

/-! Lemmas about the least-squares fit. -/

/-- Head expansion of the x sum. -/
lemma sxOf_cons (p : ℚ × ℚ) (t : List (ℚ × ℚ)) : sxOf (p :: t) = p.1 + sxOf t := by
  simp [sxOf]

/-- Head expansion of the y sum. -/
lemma syOf_cons (p : ℚ × ℚ) (t : List (ℚ × ℚ)) : syOf (p :: t) = p.2 + syOf t := by
  simp [syOf]

/-- Head expansion of the x-squared sum. -/
lemma sxxOf_cons (p : ℚ × ℚ) (t : List (ℚ × ℚ)) : sxxOf (p :: t) = p.1 * p.1 + sxxOf t := by
  simp [sxxOf]

/-- Head expansion of the cross sum. -/
lemma sxyOf_cons (p : ℚ × ℚ) (t : List (ℚ × ℚ)) : sxyOf (p :: t) = p.1 * p.2 + sxyOf t := by
  simp [sxyOf]

/-- Head expansion of the y-squared sum. -/
lemma syyOf_cons (p : ℚ × ℚ) (t : List (ℚ × ℚ)) : syyOf (p :: t) = p.2 * p.2 + syyOf t := by
  simp [syyOf]

/-- Head expansion of the residual sum of squares. -/
lemma sse_cons (p : ℚ × ℚ) (t : List (ℚ × ℚ)) (m b : ℚ) :
    sse (p :: t) m b = (p.2 - (m * p.1 + b)) ^ 2 + sse t m b := by
  simp [sse]

/-- Expansion of the residual sum of squares into the moment sums. -/
lemma sse_expand (pts : List (ℚ × ℚ)) (m b : ℚ) :
    sse pts m b = syyOf pts - 2 * m * sxyOf pts - 2 * b * syOf pts + m ^ 2 * sxxOf pts
      + 2 * m * b * sxOf pts + (pts.length : ℚ) * b ^ 2 := by
  induction pts with
  | nil => simp [sse, sxOf, syOf, sxxOf, sxyOf, syyOf]
  | cons p t ih =>
    rw [sse_cons, ih, sxOf_cons, syOf_cons, sxxOf_cons, sxyOf_cons, syyOf_cons,
      List.length_cons]
    push_cast
    ring

/-- Optimality of the modelled fit: whenever the x values are not all equal
    (positive determinant of the normal equations), the slope and intercept
    returned by polyfit1 minimise the sum of squared vertical residuals over
    all candidate lines, so they are the slope and intercept of the
    first-degree least-squares fit that np.polyfit computes. -/
lemma polyfit1_least_squares (pts : List (ℚ × ℚ))
    (hd : 0 < (pts.length : ℚ) * sxxOf pts - sxOf pts * sxOf pts) (m' b' : ℚ) :
    sse pts (polyfit1 pts).1 (polyfit1 pts).2 ≤ sse pts m' b' := by
  have hn0 : (0 : ℚ) < (pts.length : ℚ) := by
    rcases Nat.eq_zero_or_pos pts.length with h0 | h0
    · rw [h0] at hd
      have hsx := mul_self_nonneg (sxOf pts)
      push_cast at hd
      nlinarith
    · exact_mod_cast h0
  have hm : (polyfit1 pts).1
      = ((pts.length : ℚ) * sxyOf pts - sxOf pts * syOf pts)
        / ((pts.length : ℚ) * sxxOf pts - sxOf pts * sxOf pts) := rfl
  have hb : (polyfit1 pts).2
      = (syOf pts - (polyfit1 pts).1 * sxOf pts) / (pts.length : ℚ) := rfl
  have key : sse pts m' b' - sse pts (polyfit1 pts).1 (polyfit1 pts).2
      = (((pts.length : ℚ) * b' + sxOf pts * m' - syOf pts) ^ 2
          + ((pts.length : ℚ) * sxxOf pts - sxOf pts * sxOf pts)
            * (m' - (polyfit1 pts).1) ^ 2) / (pts.length : ℚ) := by
    rw [sse_expand, sse_expand, hm, hb, hm]
    field_simp
    ring
  have hnn : 0 ≤ (((pts.length : ℚ) * b' + sxOf pts * m' - syOf pts) ^ 2
      + ((pts.length : ℚ) * sxxOf pts - sxOf pts * sxOf pts)
        * (m' - (polyfit1 pts).1) ^ 2) / (pts.length : ℚ) :=
    div_nonneg (add_nonneg (sq_nonneg _) (mul_nonneg hd.le (sq_nonneg _))) hn0.le
  linarith [key, hnn]

/-- Ascending half of the spec's sort contract: the long series is pairwise
    non-decreasing in Year. The other half of that contract, stability of the
    order among rows of equal Year, is a property of pandas' default sort
    kind "quicksort" that the source does not fix, so it is not settled
    here; the model's insertion sort is stable, but that choice is the
    model's, not the program's. -/
lemma sub_long_sorted (df : DataFrame) (country indicator : String) (yr : ℤ × ℤ) :
    (sub_long df country indicator yr).Pairwise (fun a b => a.year ≤ b.year) := by
  have htot : IsTotal LongRec (fun a b => a.year ≤ b.year) :=
    ⟨fun a b => le_total a.year b.year⟩
  have htrans : IsTrans LongRec (fun a b => a.year ≤ b.year) :=
    ⟨fun _ _ _ h1 h2 => le_trans h1 h2⟩
  unfold sub_long sortByYear
  exact List.sorted_insertionSort _ _

/-! Claim theorems. -/

/-- C2: shape detection classifies the table as Wide if and only if at least
    one column name, after trimming whitespace, consists entirely of decimal
    digits; otherwise the table is treated as Long. -/
theorem claim_C2_shape_detection (df : DataFrame) :
    is_wide df = true ↔ ∃ c ∈ df.cols, pyIsdigit (pyStrip c) = true := by
  constructor
  · intro h
    have h' : 0 < (year_cols df).length := of_decide_eq_true h
    obtain ⟨c, hc⟩ := List.exists_mem_of_length_pos h'
    unfold year_cols at hc
    have hm := List.mem_filter.mp hc
    exact ⟨c, hm.1, hm.2⟩
  · rintro ⟨c, hcol, hdig⟩
    apply decide_eq_true
    exact List.length_pos_of_mem (List.mem_filter.mpr ⟨hcol, hdig⟩)

/-- Integer reading of a year-column name, as Python int() would read it. -/
def nameVal (c : String) : ℤ := pyInt ((parseNumStr c).getD 0)

/-- Specification reading of the Wide year-column selection (spec section
    4.4): the year-column names whose integer value falls within the
    selected range and which exist among the table's year columns. Stated
    from the spec's words, for comparison with selected_year_cols, which is
    the code's computation. -/
def spec_selected_year_cols (df : DataFrame) (yr : ℤ × ℤ) : List String :=
  (year_cols df).filter (fun c => decide (yr.1 ≤ nameVal c) && decide (nameVal c ≤ yr.2))

/-- Wide table whose single year column "007" is not in canonical decimal
    form. -/
def dfSeven : DataFrame :=
  { cols := ["Country Name", "Indicator Name", "007"]
    rows := [[Cell.str "A", Cell.str "I", Cell.num 5]] }

/-- C7 counterexample: the year column "007" has integer value 7, inside the
    selected range [5, 10], and exists among the table's year columns, yet
    the code pivots nothing: range(5, 11) prints as "5".."10" and never as
    "007", so the claimed set equality fails. -/
theorem claim_C7_counterexample :
    ¬ (("007" ∈ selected_year_cols dfSeven (5, 10)) ↔
        ("007" ∈ spec_selected_year_cols dfSeven (5, 10))) := by decide

/-- Characterisation of the pivoted column list computed at app.py line 61. -/
lemma mem_selected_year_cols (df : DataFrame) (yr : ℤ × ℤ) (c : String) :
    c ∈ selected_year_cols df yr ↔
      c ∈ df.cols ∧ ∃ y : ℤ, yr.1 ≤ y ∧ y ≤ yr.2 ∧ c = intToStr y := by
  unfold selected_year_cols
  rw [List.mem_map]
  constructor
  · rintro ⟨y, hy, rfl⟩
    have hf := List.mem_filter.mp hy
    have hr := mem_intRange.mp hf.1
    exact ⟨of_decide_eq_true hf.2, y, hr.1, hr.2, rfl⟩
  · rintro ⟨hcol, y, h1, h2, rfl⟩
    exact ⟨y, List.mem_filter.mpr ⟨mem_intRange.mpr ⟨h1, h2⟩, decide_eq_true hcol⟩, rfl⟩

/-- C7 amended: a name is pivoted exactly when it occurs among the table's
    columns and is the canonical decimal representation str(y) of some
    integer y of the selected range; year columns written with leading
    zeros or surrounding whitespace are skipped even when their integer
    value lies in the range. -/
theorem claim_C7_amended (df : DataFrame) (yr : ℤ × ℤ) (c : String) :
    c ∈ selected_year_cols df yr ↔
      c ∈ df.cols ∧ ∃ y : ℤ, yr.1 ≤ y ∧ y ≤ yr.2 ∧ c = intToStr y :=
  mem_selected_year_cols df yr c

/-- C8: the filter-and-reshape pipeline is a deterministic function of the
    raw table and the selection: two runs on equal inputs yield bit-identical
    long series. Every stage of the embedding is a pure function, exactly as
    each pandas step is a deterministic computation on its inputs. -/
theorem claim_C8_deterministic (df df2 : DataFrame)
    (country country2 indicator indicator2 : String) (yr yr2 : ℤ × ℤ)
    (hdf : df = df2) (hc : country = country2) (hi : indicator = indicator2)
    (hyr : yr = yr2) :
    sub_long df country indicator yr = sub_long df2 country2 indicator2 yr2 := by
  subst hdf
  subst hc
  subst hi
  subst hyr
  rfl

/-- C8 witness: the two runs at one concrete table and selection agree. -/
theorem claim_C8_witness :
    sub_long dfSeven "A" "I" (5, 10) = sub_long dfSeven "A" "I" (5, 10) :=
  claim_C8_deterministic dfSeven dfSeven "A" "A" "I" "I" (5, 10) (5, 10) rfl rfl rfl rfl

/-- Every Year of a melted record is the coercion of a canonical decimal
    column name, hence present. -/
lemma wideRaw_year_isSome (df : DataFrame) (country indicator : String) (yr : ℤ × ℤ) :
    ∀ r ∈ wideRaw df country indicator yr, r.year.isSome = true := by
  intro r hr
  unfold wideRaw at hr
  rw [List.mem_flatMap] at hr
  obtain ⟨v, hv, hr⟩ := hr
  rw [List.mem_map] at hr
  obtain ⟨row, _, rfl⟩ := hr
  obtain ⟨_, y, _, _, rfl⟩ := (mem_selected_year_cols df yr v).mp hv
  show (toNumeric (Cell.str (intToStr y))).isSome = true
  rw [show toNumeric (Cell.str (intToStr y)) = parseNumStr (intToStr y) from rfl,
    parseNumStr_intToStr]
  rfl

/-- C10: in the Wide branch every melted Year label is the canonical decimal
    name of a selected year and therefore coerces to a number, the final
    dropna on Year removes no record, and the long series has exactly one
    record per (matching row, selected year column) pair. -/
theorem claim_C10_wide_no_drop (df : DataFrame) (country indicator : String)
    (yr : ℤ × ℤ) (h : is_wide df = true) :
    (∀ r ∈ wideRaw df country indicator yr, r.year.isSome = true) ∧
    (dropnaYear (wideRaw df country indicator yr)).length
      = (wideRaw df country indicator yr).length ∧
    (sub_long df country indicator yr).length
      = (subRows df country indicator).length * (selected_year_cols df yr).length := by
  refine ⟨wideRaw_year_isSome df country indicator yr,
    dropnaYear_length (wideRaw_year_isSome df country indicator yr), ?_⟩
  unfold sub_long
  rw [if_pos h]
  unfold sortByYear
  rw [List.length_insertionSort,
    dropnaYear_length (wideRaw_year_isSome df country indicator yr)]
  unfold wideRaw
  rw [length_flatMap_eq _ _ (subRows df country indicator).length
    (fun v _ => List.length_map _ _)]
  exact Nat.mul_comm _ _

/-- C10 witness: on a concrete wide table with three year columns and one
    matching row, the pipeline keeps all three records. -/
theorem claim_C10_witness :
    is_wide dfSeven = true ∧
    ((∀ r ∈ wideRaw dfSeven "A" "I" (6, 9), r.year.isSome = true) ∧
      (dropnaYear (wideRaw dfSeven "A" "I" (6, 9))).length
        = (wideRaw dfSeven "A" "I" (6, 9)).length ∧
      (sub_long dfSeven "A" "I" (6, 9)).length
        = (subRows dfSeven "A" "I").length * (selected_year_cols dfSeven (6, 9)).length) :=
  ⟨by decide, claim_C10_wide_no_drop dfSeven "A" "I" (6, 9) (by decide)⟩

/-- C6: in the Long branch a record survives to the long series exactly when
    its row matches the selection, its Year cell coerces to a number inside
    the selected range, and its Value is whatever the Value cell coerces to,
    possibly missing: Year-coercion failures drop the row, Value-coercion
    failures keep it with a missing Value, and no coercion raises. -/
theorem claim_C6_long_coercion (df : DataFrame) (country indicator : String)
    (yr : ℤ × ℤ) (h : is_wide df = false) (rec : LongRec) :
    rec ∈ sub_long df country indicator yr ↔
      ∃ row ∈ subRows df country indicator,
        toNumeric (getCell df.cols row "Year") = some rec.year ∧
        (yr.1 : ℚ) ≤ rec.year ∧ rec.year ≤ (yr.2 : ℚ) ∧
        rec.value = toNumeric (getCell df.cols row "Value") ∧
        rec.ids = (df.cols.filter (fun c => c != "Year" && c != "Value")).map
          (fun c => getCell df.cols row c) := by
  obtain ⟨rids, ryear, rvalue⟩ := rec
  unfold sub_long
  rw [if_neg (by simp [h])]
  unfold sortByYear
  rw [List.mem_insertionSort]
  unfold dropnaYear
  rw [List.mem_filterMap]
  constructor
  · rintro ⟨r, hr, hmap⟩
    unfold longRaw at hr
    rw [List.mem_filter] at hr
    obtain ⟨hmem2, hp⟩ := hr
    rw [List.mem_map] at hmem2
    obtain ⟨row, hrow, rfl⟩ := hmem2
    rw [Option.map_eq_some'] at hmap
    obtain ⟨y, hy, heq⟩ := hmap
    injection heq with e1 e2 e3
    subst e1
    subst e2
    subst e3
    rw [hy] at hp
    simp only [inRangeQ, Bool.and_eq_true, decide_eq_true_eq] at hp
    exact ⟨row, hrow, hy, hp.1, hp.2, rfl, rfl⟩
  · rintro ⟨row, hrow, hy, h1, h2, hval, hids⟩
    refine ⟨longRow df row, ?_, ?_⟩
    · unfold longRaw
      rw [List.mem_filter]
      refine ⟨List.mem_map.mpr ⟨row, hrow, rfl⟩, ?_⟩
      show inRangeQ yr (longRow df row).year = true
      rw [show (longRow df row).year = toNumeric (getCell df.cols row "Year") from rfl, hy]
      simp only [inRangeQ, Bool.and_eq_true, decide_eq_true_eq]
      exact ⟨h1, h2⟩
    · show ((longRow df row).year).map _ = _
      rw [show (longRow df row).year = toNumeric (getCell df.cols row "Year") from rfl, hy,
        Option.map_some',
        show (longRow df row).value = toNumeric (getCell df.cols row "Value") from rfl,
        show (longRow df row).ids
          = (df.cols.filter (fun c => c != "Year" && c != "Value")).map
            (fun c => getCell df.cols row c) from rfl,
        ← hval, ← hids]

/-- Long table of the C6 scenario: Year cells "2000", "abc", "2002". -/
def dfScenario : DataFrame :=
  { cols := ["Country Name", "Indicator Name", "Year", "Value"]
    rows := [[Cell.str "A", Cell.str "I", Cell.str "2000", Cell.num 1],
             [Cell.str "A", Cell.str "I", Cell.str "abc", Cell.num 2],
             [Cell.str "A", Cell.str "I", Cell.str "2002", Cell.num 3]] }

/-- C6 witness: on the scenario table the characterisation holds at a sample
    record, and the "abc" row is dropped, leaving exactly 2 rows. -/
theorem claim_C6_witness :
    is_wide dfScenario = false ∧
    ((⟨[Cell.str "A", Cell.str "I"], 2000, some 1⟩ : LongRec)
        ∈ sub_long dfScenario "A" "I" (2000, 2002) ↔
      ∃ row ∈ subRows dfScenario "A" "I",
        toNumeric (getCell dfScenario.cols row "Year") = some (2000 : ℚ) ∧
        ((2000 : ℤ) : ℚ) ≤ 2000 ∧ (2000 : ℚ) ≤ ((2002 : ℤ) : ℚ) ∧
        (some (1 : ℚ)) = toNumeric (getCell dfScenario.cols row "Value") ∧
        [Cell.str "A", Cell.str "I"]
          = (dfScenario.cols.filter (fun c => c != "Year" && c != "Value")).map
            (fun c => getCell dfScenario.cols row c)) ∧
    (sub_long dfScenario "A" "I" (2000, 2002)).length = 2 :=
  ⟨by decide,
    claim_C6_long_coercion dfScenario "A" "I" (2000, 2002) (by decide)
      ⟨[Cell.str "A", Cell.str "I"], 2000, some 1⟩,
    by decide⟩

/-- Bounds of the guarded quotient missing/total. -/
lemma rate_bounds (miss tot : ℕ) (hle : miss ≤ tot) :
    0 ≤ (if 0 < tot then ((miss : ℚ)) / ((tot : ℚ)) else 0) ∧
      (if 0 < tot then ((miss : ℚ)) / ((tot : ℚ)) else 0) ≤ 1 := by
  split
  · rename_i hpos
    constructor
    · positivity
    · rw [div_le_one (by exact_mod_cast hpos)]
      exact_mod_cast hle
  · constructor <;> norm_num

/-- C5: every row of the completeness table carries the size of its Year
    group, the count of missing Values in the group, and their quotient
    guarded against a zero total; the rate always lies in [0, 1] and no
    division by zero can occur. -/
theorem claim_C5_missing_rate (df : DataFrame) (country indicator : String) (yr : ℤ × ℤ)
    (s : YearStat) (hs : s ∈ countsOf (sub_long df country indicator yr)) :
    s.total = ((sub_long df country indicator yr).filter
      (fun r => decide (r.year = s.year))).length ∧
    s.missing = (((sub_long df country indicator yr).filter
      (fun r => decide (r.year = s.year))).filter (fun r => r.value.isNone)).length ∧
    s.missing_rate = (if 0 < s.total then ((s.missing : ℚ)) / ((s.total : ℚ)) else 0) ∧
    0 ≤ s.missing_rate ∧ s.missing_rate ≤ 1 := by
  unfold countsOf at hs
  rw [List.mem_map] at hs
  obtain ⟨y, _, rfl⟩ := hs
  refine ⟨rfl, rfl, rfl, ?_, ?_⟩
  · exact (rate_bounds _ _ (List.length_filter_le _ _)).1
  · exact (rate_bounds _ _ (List.length_filter_le _ _)).2

/-- Wide scenario table of the spec: one row with a missing 2001 value. -/
def dfWide : DataFrame :=
  { cols := ["Country Name", "Indicator Name", "2000", "2001", "2002"]
    rows := [[Cell.str "A", Cell.str "I", Cell.num 10, Cell.na, Cell.num 30]] }

/-- C5 witness: a concrete completeness row of the wide scenario table. -/
theorem claim_C5_witness :
    (⟨2001, 1, 1, 1⟩ : YearStat) ∈ countsOf (sub_long dfWide "A" "I" (2000, 2002)) ∧
    ((⟨2001, 1, 1, 1⟩ : YearStat).total = ((sub_long dfWide "A" "I" (2000, 2002)).filter
        (fun r => decide (r.year = (⟨2001, 1, 1, 1⟩ : YearStat).year))).length ∧
      (⟨2001, 1, 1, 1⟩ : YearStat).missing
        = (((sub_long dfWide "A" "I" (2000, 2002)).filter
            (fun r => decide (r.year = (⟨2001, 1, 1, 1⟩ : YearStat).year))).filter
          (fun r => r.value.isNone)).length ∧
      (⟨2001, 1, 1, 1⟩ : YearStat).missing_rate
        = (if 0 < (⟨2001, 1, 1, 1⟩ : YearStat).total
            then (((⟨2001, 1, 1, 1⟩ : YearStat).missing : ℚ))
              / (((⟨2001, 1, 1, 1⟩ : YearStat).total : ℚ)) else 0) ∧
      0 ≤ (⟨2001, 1, 1, 1⟩ : YearStat).missing_rate ∧
      (⟨2001, 1, 1, 1⟩ : YearStat).missing_rate ≤ 1) :=
  ⟨by decide, claim_C5_missing_rate dfWide "A" "I" (2000, 2002) ⟨2001, 1, 1, 1⟩ (by decide)⟩

/-- C4: with fewer than two clean points the forecast is absent, the
    informational notice is shown, and the trend, completeness and
    distribution analytics are still the normal derivations of the long
    series; the whole render stage is a total function, so the path raises
    no error. -/
theorem claim_C4_sparse_selection (df : DataFrame) (country indicator : String) (yr : ℤ × ℤ)
    (h : (clean (sub_long df country indicator yr)).length < 2) :
    (render df country indicator yr).forecast = none ∧
    (render df country indicator yr).insufficient = true ∧
    (render df country indicator yr).trend = sub_long df country indicator yr ∧
    (render df country indicator yr).completeness = countsOf (sub_long df country indicator yr) ∧
    (render df country indicator yr).distribution
      = (clean (sub_long df country indicator yr)).filterMap (fun r => r.value) := by
  refine ⟨?_, ?_, rfl, rfl, rfl⟩
  · show (if 2 ≤ (clean (sub_long df country indicator yr)).length
        then some (forecastOf (clean (sub_long df country indicator yr))) else none) = none
    rw [if_neg (by omega)]
  · show decide ((clean (sub_long df country indicator yr)).length < 2) = true
    exact decide_eq_true h

/-- Long table with a single data point. -/
def dfOne : DataFrame :=
  { cols := ["Country Name", "Indicator Name", "Year", "Value"]
    rows := [[Cell.str "A", Cell.str "I", Cell.str "2000", Cell.num 1]] }

/-- C4 witness: one clean point skips the forecast and keeps the other three
    analytics. -/
theorem claim_C4_witness :
    (clean (sub_long dfOne "A" "I" (2000, 2002))).length < 2 ∧
    ((render dfOne "A" "I" (2000, 2002)).forecast = none ∧
      (render dfOne "A" "I" (2000, 2002)).insufficient = true ∧
      (render dfOne "A" "I" (2000, 2002)).trend = sub_long dfOne "A" "I" (2000, 2002) ∧
      (render dfOne "A" "I" (2000, 2002)).completeness
        = countsOf (sub_long dfOne "A" "I" (2000, 2002)) ∧
      (render dfOne "A" "I" (2000, 2002)).distribution
        = (clean (sub_long dfOne "A" "I" (2000, 2002))).filterMap (fun r => r.value)) :=
  ⟨by decide, claim_C4_sparse_selection dfOne "A" "I" (2000, 2002) (by decide)⟩

/-- C1: with at least two clean points the rendered forecast exists and
    consists of exactly the ten records at the consecutive integer years
    M + 1 .. M + 10 after the last clean Year M, each predicted as
    m * Year + b from the fitted slope and intercept; and whenever the fit
    is nondegenerate those coefficients minimise the squared residuals, so
    they are the first-degree least-squares fit of the clean points. -/
theorem claim_C1_forecast (df : DataFrame) (country indicator : String) (yr : ℤ × ℤ) (M : ℤ)
    (h2 : 2 ≤ (clean (sub_long df country indicator yr)).length)
    (hM : maxYear (clean (sub_long df country indicator yr)) = ((M : ℚ))) :
    (render df country indicator yr).forecast
      = some (forecastOf (clean (sub_long df country indicator yr))) ∧
    forecastOf (clean (sub_long df country indicator yr))
      = (List.range 10).map (fun j =>
          (M + 1 + (j : ℤ),
            (polyfit1 (cleanPts (clean (sub_long df country indicator yr)))).1
                * (((M + 1 + (j : ℤ)) : ℤ) : ℚ)
              + (polyfit1 (cleanPts (clean (sub_long df country indicator yr)))).2)) ∧
    (0 < ((cleanPts (clean (sub_long df country indicator yr))).length : ℚ)
          * sxxOf (cleanPts (clean (sub_long df country indicator yr)))
        - sxOf (cleanPts (clean (sub_long df country indicator yr)))
          * sxOf (cleanPts (clean (sub_long df country indicator yr))) →
      ∀ m b : ℚ,
        sse (cleanPts (clean (sub_long df country indicator yr)))
            (polyfit1 (cleanPts (clean (sub_long df country indicator yr)))).1
            (polyfit1 (cleanPts (clean (sub_long df country indicator yr)))).2
          ≤ sse (cleanPts (clean (sub_long df country indicator yr))) m b) := by
  refine ⟨?_, ?_, fun hd m b => polyfit1_least_squares _ hd m b⟩
  · show (if 2 ≤ (clean (sub_long df country indicator yr)).length
        then some (forecastOf (clean (sub_long df country indicator yr))) else none)
      = some (forecastOf (clean (sub_long df country indicator yr)))
    rw [if_pos h2]
  · unfold forecastOf future_years
    rw [hM, pyInt_intCast, List.map_map]
    rfl

/-- C1 witness at the scenario table: two clean points ending in 2002. -/
theorem claim_C1_witness :
    (2 ≤ (clean (sub_long dfScenario "A" "I" (2000, 2002))).length ∧
      maxYear (clean (sub_long dfScenario "A" "I" (2000, 2002))) = (((2002 : ℤ) : ℚ))) ∧
    ((render dfScenario "A" "I" (2000, 2002)).forecast
        = some (forecastOf (clean (sub_long dfScenario "A" "I" (2000, 2002)))) ∧
      forecastOf (clean (sub_long dfScenario "A" "I" (2000, 2002)))
        = (List.range 10).map (fun j =>
            ((2002 : ℤ) + 1 + (j : ℤ),
              (polyfit1 (cleanPts (clean (sub_long dfScenario "A" "I" (2000, 2002))))).1
                  * ((((2002 : ℤ) + 1 + (j : ℤ)) : ℤ) : ℚ)
                + (polyfit1 (cleanPts (clean (sub_long dfScenario "A" "I" (2000, 2002))))).2)) ∧
      (0 < ((cleanPts (clean (sub_long dfScenario "A" "I" (2000, 2002)))).length : ℚ)
            * sxxOf (cleanPts (clean (sub_long dfScenario "A" "I" (2000, 2002))))
          - sxOf (cleanPts (clean (sub_long dfScenario "A" "I" (2000, 2002))))
            * sxOf (cleanPts (clean (sub_long dfScenario "A" "I" (2000, 2002)))) →
        ∀ m b : ℚ,
          sse (cleanPts (clean (sub_long dfScenario "A" "I" (2000, 2002))))
              (polyfit1 (cleanPts (clean (sub_long dfScenario "A" "I" (2000, 2002))))).1
              (polyfit1 (cleanPts (clean (sub_long dfScenario "A" "I" (2000, 2002))))).2
            ≤ sse (cleanPts (clean (sub_long dfScenario "A" "I" (2000, 2002)))) m b)) :=
  ⟨⟨by decide, by decide⟩,
    claim_C1_forecast dfScenario "A" "I" (2000, 2002) 2002 (by decide) (by decide)⟩

/-- Long table whose points lie exactly on the line y = 2x + 3 for
    x = 2000..2010. -/
def dfLine : DataFrame :=
  { cols := ["Country Name", "Indicator Name", "Year", "Value"]
    rows := [[Cell.str "A", Cell.str "I", Cell.num 2000, Cell.num 4003],
             [Cell.str "A", Cell.str "I", Cell.num 2001, Cell.num 4005],
             [Cell.str "A", Cell.str "I", Cell.num 2002, Cell.num 4007],
             [Cell.str "A", Cell.str "I", Cell.num 2003, Cell.num 4009],
             [Cell.str "A", Cell.str "I", Cell.num 2004, Cell.num 4011],
             [Cell.str "A", Cell.str "I", Cell.num 2005, Cell.num 4013],
             [Cell.str "A", Cell.str "I", Cell.num 2006, Cell.num 4015],
             [Cell.str "A", Cell.str "I", Cell.num 2007, Cell.num 4017],
             [Cell.str "A", Cell.str "I", Cell.num 2008, Cell.num 4019],
             [Cell.str "A", Cell.str "I", Cell.num 2009, Cell.num 4021],
             [Cell.str "A", Cell.str "I", Cell.num 2010, Cell.num 4023]] }

/-- C9: on the synthetic line y = 2x + 3 over x = 2000..2010 the fitted
    slope and intercept are within 1e-6 of 2 and 3 (they are exact over the
    rational embedding), and every forecast value lies exactly on the line
    at its year. -/
theorem claim_C9_line_fit :
    |(polyfit1 (cleanPts (clean (sub_long dfLine "A" "I" (2000, 2010))))).1 - 2|
        ≤ 1 / 1000000 ∧
    |(polyfit1 (cleanPts (clean (sub_long dfLine "A" "I" (2000, 2010))))).2 - 3|
        ≤ 1 / 1000000 ∧
    forecastOf (clean (sub_long dfLine "A" "I" (2000, 2010)))
      = [(2011, 4025), (2012, 4027), (2013, 4029), (2014, 4031), (2015, 4033),
         (2016, 4035), (2017, 4037), (2018, 4039), (2019, 4041), (2020, 4043)] := by
  decide

end EduDash
